import Mathlib

/-!
Verification of the hierarchical_rl function-approximation core.

This development is a shallow embedding of the repository's two source
files:

* `scripts/state_adapters.py` — deterministic one-hot state encoders;
* `scripts/qnetwork.py` — the dual-network Q-value estimator
  (`QNetwork`, the dense variant, and `ConvQNetwork`, the convolutional
  variant).

Numeric array entries are modelled over `ℚ`.  A Parameter Set (the
ordered list of weight/bias arrays returned by
`lasagne.layers.helper.get_all_param_values`) is modelled as
`List (List ℚ)`.  The external tensor engine (theano / lasagne) is out
of scope for the repository: its compiled gradient update (`self._train`)
and compiled forward pass (`self._get_q_values`) are opaque functions
stored in the estimator state, and mutate exactly what the engine's
interface says they mutate (the gradient update is defined only over the
live network's parameters, `qnetwork.py` lines 229-230).

The estimator state machine (`QNet`) is generic over the feature type
`α` so that one model covers both the dense variant (`α = List ℚ`, rows
of the `(batch_size, input_shape)` buffer) and the convolutional variant
(`α` a rank-3 tensor, rows of the `(batch_size, 1, *input_shape)`
buffer): the two Python classes have line-for-line identical training,
synchronization and inference-padding logic.
-/

namespace HRL

/-! ## State adapters (`state_adapters.py`) -/

/-- Numeric vector produced by `np.zeros(n)` followed by setting index
`idx` to 1 (`state_adapters.py` lines 21-24): entry `j` is 1 exactly when
`(j : ℤ) = idx`, and 0 otherwise. -/
def oneHot (n : ℕ) (idx : ℤ) : List ℚ :=
  (List.range n).map (fun (j : ℕ) => if (j : ℤ) = idx then 1 else 0)

/-- Model of
`CoordinatesToSingleRoomRowColAdapter.convert_state_to_agent_format`
(`state_adapters.py` lines 9-29): one-hot the row coordinate modulo
`room_size`, one-hot the column coordinate modulo `room_size`, and
concatenate (`np.hstack`).  Python's `%` on integers with a positive
modulus returns the nonnegative residue, which is exactly Lean's `%` on
`ℤ` (`Int.emod`). -/
def convert_state_to_agent_format (room_size : ℕ) (state : ℤ × ℤ) : List ℚ :=
  let ridx := state.1
  let cidx := state.2
  let row := oneHot room_size (ridx % (room_size : ℤ))
  let col := oneHot room_size (cidx % (room_size : ℤ))
  row ++ col

/-- Predicate: `v` is a one-hot vector with its single 1 at index `k`. -/
def isOneHotAt (v : List ℚ) (k : ℕ) : Prop :=
  ∀ j (hj : j < v.length), v.get ⟨j, hj⟩ = if j = k then 1 else 0

/-! ## The symbolic loss pipeline (`qnetwork.py` lines 207-226 and 384-404)

The loss graph assembled in `initialize_network` is identical in the two
variants except for the final aggregation (`T.sum` in `QNetwork`,
`T.mean` in `ConvQNetwork`).  We translate it as pure functions on
batches, one definition per source expression. -/

/-- Row maximum, `T.max(next_q_vals, axis=1)` applied to one row.  A row
is never empty in the source (`num_actions ≥ 1`); the `[]` case is an
unreachable default. -/
def rowMax : List ℚ → ℚ
  | [] => 0
  | x :: xs => xs.foldl max x

/-- Bootstrap target column (`qnetwork.py` lines 210-212):
`target = rewards + (T.ones_like(terminals) - terminals) * discount
* T.max(next_q_vals, axis=1, keepdims=True)`, computed per row. -/
def computeTargets (discount : ℚ) (rewards : List ℚ) (terminals : List ℤ)
    (next_q_vals : List (List ℚ)) : List ℚ :=
  List.zipWith (fun r tq => r + (1 - (tq.1 : ℚ)) * discount * rowMax tq.2)
    rewards (terminals.zip next_q_vals)

/-- Per-row selection `q_vals[T.arange(batch_size), actions.reshape((-1,))]`
(`qnetwork.py` line 214): row `i` contributes `q_vals[i][actions[i]]`. -/
def selectQ (q_vals : List (List ℚ)) (actions : List ℕ) : List ℚ :=
  List.zipWith (fun row a => row.getD a 0) q_vals actions

/-- TD-error column `diff = target - q_selected` (`qnetwork.py` line 214). -/
def computeDiff (targets qSel : List ℚ) : List ℚ :=
  List.zipWith (fun t q => t - q) targets qSel

/-- Per-row Huber-style clipped loss (`qnetwork.py` lines 223-225):
`quadratic_part = T.minimum(abs(diff), 1.0)`;
`linear_part = abs(diff) - quadratic_part`;
`loss = 0.5 * quadratic_part ** 2 + linear_part`. -/
def rowLoss (diff : ℚ) : ℚ :=
  let quadratic_part := min |diff| 1
  let linear_part := |diff| - quadratic_part
  (1 / 2) * quadratic_part ^ 2 + linear_part

/-- L2 penalty `regularize_network_params(self.l_out, l2)`: the sum over
the live network's regularizable parameter arrays (the weight matrices;
lasagne's default tags exclude biases) of the sum of squared entries. -/
def l2penalty (weights : List (List ℚ)) : ℚ :=
  (weights.map (fun w => (w.map (fun x => x ^ 2)).sum)).sum

/-- `T.mean` of a column: sum divided by the number of entries. -/
def listMean (l : List ℚ) : ℚ := l.sum / l.length

/-- Scalar loss of the dense variant (`qnetwork.py` line 226):
`loss = T.sum(loss) + self.regularization * regularize_network_params(...)`. -/
def denseScalarLoss (regularization : ℚ) (diffs : List ℚ)
    (weights : List (List ℚ)) : ℚ :=
  (diffs.map rowLoss).sum + regularization * l2penalty weights

/-- Scalar loss of the convolutional variant (`qnetwork.py` line 404):
`loss = T.mean(loss) + self.regularization * regularize_network_params(...)`. -/
def convScalarLoss (regularization : ℚ) (diffs : List ℚ)
    (weights : List (List ℚ)) : ℚ :=
  listMean (diffs.map rowLoss) + regularization * l2penalty weights

/-! ## The estimator state machine (`qnetwork.py` lines 15-162, 292-338) -/

/-- Parameter Set: ordered list of numeric arrays, as produced by
`lasagne.layers.helper.get_all_param_values`. -/
abbrev Params := List (List ℚ)

/-- Transition Batch: the five index-aligned sequences passed to `train`. -/
structure Batch (α : Type) where
  states : List α
  actions : List ℤ
  rewards : List ℚ
  next_states : List α
  terminals : List ℤ

/-- Observable state of one estimator instance: configuration, the live
and target Parameter Sets, the update counter, the five pre-allocated
shared input buffers, and the two opaque compiled engine functions.
`zeroState` is one zero row of the states buffer (`np.zeros` of the
per-example feature shape): `List.replicate input_shape 0` for the dense
variant, a zero rank-3 tensor for the convolutional variant. -/
structure QNet (α : Type) where
  batch_size : ℕ
  freeze_interval : ℕ
  zeroState : α
  live : Params
  target : Params
  update_counter : ℕ
  states_shared : List α
  actions_shared : List ℤ
  rewards_shared : List ℚ
  next_states_shared : List α
  terminals_shared : List ℤ
  gradStep : Params → Params → Batch α → Params
  forward : Params → List α → List (List ℚ)

/-- `reset_target_network` (`qnetwork.py` lines 154-159 and 336-338):
copy the full live Parameter Set into the target Parameter Set. -/
def reset_target_network {α : Type} (net : QNet α) : QNet α :=
  { net with target := net.live }

/-- `get_params` (`qnetwork.py` lines 139-144 and 333-334): return the
live Parameter Set; reads no other state and mutates nothing. -/
def get_params {α : Type} (net : QNet α) : Params :=
  net.live

/-- `set_params` (`qnetwork.py` lines 146-152; `ConvQNetwork` has no such
method): load the given arrays into the live Parameter Set via
`lasagne.layers.set_all_param_values` — an external engine call, spec'd
as validating shape compatibility and failing otherwise — then run
`reset_target_network`.  Shape compatibility is the list of array
lengths matching the live Parameter Set's. -/
def set_params {α : Type} (net : QNet α) (params : Params) :
    Except Unit (QNet α) :=
  if params.map List.length = net.live.map List.length then
    Except.ok (reset_target_network { net with live := params })
  else
    Except.error ()

/-- Shape conformance of a Transition Batch to the configuration: all
five sequences have length `batch_size` — the Transition-Batch invariant
of the spec.  The source performs no per-call size check; conformant
batches always evaluate successfully (`batchWellShaped_succeeds`), while
nonconformant ones may or may not raise, per
`trainComputationSucceeds`. -/
def batchWellShaped {α : Type} (net : QNet α) (b : Batch α) : Bool :=
  b.states.length == net.batch_size && b.actions.length == net.batch_size &&
  b.rewards.length == net.batch_size && b.next_states.length == net.batch_size &&
  b.terminals.length == net.batch_size

/-- Success condition of the compiled `self._train()` call at runtime
buffer lengths, following the engine's evaluation of the graph of
`qnetwork.py` lines 208-226.  theano's `set_value` fixes only ndim and
dtype, never shape, so all five binds accept any lengths; the graph then
evaluates iff:
(a) the elementwise bootstrap-target expression (lines 210-212) finds
    the `rewards`, `terminals` and max-of-`next_q_vals` columns of equal
    length (theano elementwise requires runtime sizes to match exactly
    on dimensions not declared broadcastable);
(b) the advanced indexing
    `q_vals[T.arange(batch_size), actions.reshape((-1,))]` (line 214)
    can broadcast its two index arrays (numpy rules: equal lengths, or
    either of length 1) and every row index in `T.arange(batch_size)` is
    in bounds for the `states.length` rows of `q_vals`;
(c) the TD difference (line 214) finds the target column's length equal
    to the selected-Q column's broadcast length
    `max batch_size actions.length`.
A batch with all five lengths equal to `batch_size` always passes; a
batch SMALLER than `batch_size` fails (b)'s bounds check; with
`batch_size = 1` an OVERSIZED batch is silently accepted by index
broadcasting and trains normally. -/
def trainComputationSucceeds {α : Type} (net : QNet α) (b : Batch α) : Bool :=
  (b.rewards.length == b.terminals.length) &&
  (b.terminals.length == b.next_states.length) &&
  (net.batch_size == b.actions.length || net.batch_size == 1 ||
    b.actions.length == 1) &&
  (decide (net.batch_size ≤ b.states.length)) &&
  (b.rewards.length == max net.batch_size b.actions.length)

/-- `train` (`qnetwork.py` lines 72-114 and 312-324), in source order:
1. if `update_counter % freeze_interval == 0`, `reset_target_network`;
2. `update_counter += 1`;
3. overwrite the five shared input buffers with the batch's sequences
   (five successive `set_value` calls — these accept any lengths);
4. run the compiled `self._train()` (line 113): when the engine's
   runtime shape rules (`trainComputationSucceeds`) hold it applies the
   gradient update — which is defined only over the live network's
   parameters — otherwise the engine raises there, after the state
   mutations of steps 1-3 have already happened.
Returns the post-call state together with `ok` (call returned) or
`error` (exception propagated out of `self._train()`). -/
def train {α : Type} (net : QNet α) (b : Batch α) :
    QNet α × Except Unit Unit :=
  let net1 := if net.update_counter % net.freeze_interval = 0 then
    reset_target_network net else net
  let net2 := { net1 with update_counter := net1.update_counter + 1 }
  let net3 := { net2 with
    states_shared := b.states
    actions_shared := b.actions
    rewards_shared := b.rewards
    next_states_shared := b.next_states
    terminals_shared := b.terminals }
  if trainComputationSucceeds net b then
    ({ net3 with live := net3.gradStep net3.live net3.target b }, Except.ok ())
  else
    (net3, Except.error ())

/-- Iterated training: fold `train` over a list of batches, keeping the
estimator state. -/
def trainSeq {α : Type} (net : QNet α) (bs : List (Batch α)) : QNet α :=
  bs.foldl (fun n b => (train n b).1) net

/-- `get_q_values` (`qnetwork.py` lines 116-137 and 326-331): build a
zero-filled fake batch (`np.zeros` of the buffer shape), place the given
state at row 0, overwrite the states buffer with it, run the compiled
forward pass on the live network, and return row 0 of its output.  The
compiled `self._get_q_values` has no update clause, so it mutates no
parameters. -/
def get_q_values {α : Type} (net : QNet α) (state : α) :
    QNet α × List ℚ :=
  let states := (List.replicate net.batch_size net.zeroState).set 0 state
  let net2 := { net with states_shared := states }
  (net2, (net2.forward net2.live net2.states_shared).getD 0 [])

/-! ## Network construction (`qnetwork.py` lines 168-285 and 344-458) -/

/-- Reference to a layer of the dense builder: the input layer or the
hidden layer constructed at loop index `idx`. -/
inductive LayerRef where
  | input : LayerRef
  | hidden : ℕ → LayerRef
deriving DecidableEq

/-- Topology produced by the dense builder: the source layer of each
hidden `DenseLayer` in construction order, and the source layer of the
final linear output `DenseLayer`. -/
structure DenseTopology where
  hiddenSources : List LayerRef
  outputSource : LayerRef
deriving DecidableEq

/-- Loop of `QNetwork.build_network` (`qnetwork.py` lines 267-275):
`l_hid = l_in`, then `for hidden_idx in range(num_hidden_layers):
l_hid = DenseLayer(l_in, ...)`.  Each constructed hidden layer's source
is the variable `l_in` — which always refers to the input layer — and
`l_hid` is rebound to the layer just constructed.  The fold state is
(sources of the hidden layers constructed so far, current `l_hid`). -/
def buildHiddenLoop (num_hidden_layers : ℕ) : List LayerRef × LayerRef :=
  (List.range num_hidden_layers).foldl
    (fun st hidden_idx => (st.1 ++ [LayerRef.input], LayerRef.hidden hidden_idx))
    ([], LayerRef.input)

/-- `QNetwork.build_network` (`qnetwork.py` lines 258-285), topology
part: run the hidden-layer loop, then construct the output `DenseLayer`
with source `l_hid` (the last-constructed hidden layer, or the input
layer when `num_hidden_layers = 0`). -/
def build_network (num_hidden_layers : ℕ) : DenseTopology :=
  { hiddenSources := (buildHiddenLoop num_hidden_layers).1
    outputSource := (buildHiddenLoop num_hidden_layers).2 }

/-- Observable events of `initialize_network`, in execution order.
`paramSetCreated` is one `build_network` call (each creates a fresh
Parameter Set of shared variables); `targetSynced` is the
`reset_target_network` call; `lossAssembled` is the symbolic loss block;
`updatesInitialized` is a successful `initialize_updates` call;
`functionsCompiled` is the two `theano.function` calls; `configError` is
the `ValueError` raised by `initialize_updates`. -/
inductive InitEvent where
  | paramSetCreated : InitEvent
  | targetSynced : InitEvent
  | lossAssembled : InitEvent
  | updatesInitialized : InitEvent
  | functionsCompiled : InitEvent
  | configError : String → InitEvent
deriving DecidableEq

/-- Test for the construction-failure event. -/
def InitEvent.isConfigError : InitEvent → Bool
  | InitEvent.configError _ => true
  | _ => false

/-- `initialize_updates` (`qnetwork.py` lines 243-256 and 421-431):
accept exactly the strings `adam`, `rmsprop` and `sgd`; any other value
raises `ValueError("Unrecognized update: {}".format(update_rule))`. -/
def initialize_updates (update_rule : String) : Except String Unit :=
  if update_rule = "adam" then Except.ok ()
  else if update_rule = "rmsprop" then Except.ok ()
  else if update_rule = "sgd" then Except.ok ()
  else Except.error ("Unrecognized update: " ++ update_rule)

/-- Event trace of `initialize_network` (`qnetwork.py` lines 168-241),
which `__init__` calls before setting `update_counter = 0`.  In source
order: step 1 builds the live and target networks (lines 184-185, two
Parameter Sets created) and syncs the target (line 186); step 4
assembles the symbolic loss (lines 207-226); step 5 calls
`initialize_updates` (line 230), whose `ValueError` aborts the trace;
step 6 compiles the two theano functions (lines 240-241). -/
def initialize_network (update_rule : String) : List InitEvent :=
  match initialize_updates update_rule with
  | Except.ok _ =>
    [InitEvent.paramSetCreated, InitEvent.paramSetCreated, InitEvent.targetSynced,
     InitEvent.lossAssembled, InitEvent.updatesInitialized,
     InitEvent.functionsCompiled]
  | Except.error msg =>
    [InitEvent.paramSetCreated, InitEvent.paramSetCreated, InitEvent.targetSynced,
     InitEvent.lossAssembled, InitEvent.configError msg]

/-- Method inventory of the Python class `QNetwork`
(`qnetwork.py` lines 15-285), transcribed from the class body. -/
def QNetworkMethods : List String :=
  ["__init__", "train", "get_q_values", "get_params", "set_params",
   "reset_target_network", "finish_episode", "initialize_network",
   "initialize_updates", "build_network"]

/-- Method inventory of the Python class `ConvQNetwork`
(`qnetwork.py` lines 292-458), transcribed from the class body. -/
def ConvQNetworkMethods : List String :=
  ["__init__", "train", "get_q_values", "get_params",
   "reset_target_network", "initialize_network", "initialize_updates",
   "build_network"]

/-! ## Concrete instances used by counterexamples and witnesses -/

/-- Dense estimator instance for claim C1: `freeze_interval = 1`, fresh
counter, live and target deliberately different, and a gradient step
that moves every live weight by 1 (any nonzero update exhibits the same
behavior; a zero update only arises from an identically zero gradient). -/
def C1net : QNet (List ℚ) :=
  { batch_size := 1
    freeze_interval := 1
    zeroState := [0]
    live := [[0]]
    target := [[5]]
    update_counter := 0
    states_shared := [[0]]
    actions_shared := [0]
    rewards_shared := [0]
    next_states_shared := [[0]]
    terminals_shared := [0]
    gradStep := fun live _ _ => live.map (fun w => w.map (fun x => x + 1))
    forward := fun _ _ => [] }

/-- Well-shaped singleton batch for claim C1's concrete training call. -/
def C1batch : Batch (List ℚ) :=
  { states := [[1]]
    actions := [0]
    rewards := [0]
    next_states := [[1]]
    terminals := [0] }

/-- Dense estimator instance for claim C7's witness. -/
def C7net : QNet (List ℚ) :=
  { batch_size := 2
    freeze_interval := 3
    zeroState := [0, 0]
    live := [[3, 1], [4]]
    target := [[0, 0], [0]]
    update_counter := 5
    states_shared := [[0, 0], [0, 0]]
    actions_shared := [0, 0]
    rewards_shared := [0, 0]
    next_states_shared := [[0, 0], [0, 0]]
    terminals_shared := [0, 0]
    gradStep := fun live _ _ => live
    forward := fun _ _ => [] }

/-- Dense estimator instance for claim C8: batch size 2, counter at a
sync point, live and target different. -/
def C8net : QNet (List ℚ) :=
  { batch_size := 2
    freeze_interval := 2
    zeroState := [0]
    live := [[1]]
    target := [[7]]
    update_counter := 0
    states_shared := [[0], [0]]
    actions_shared := [0, 0]
    rewards_shared := [0, 0]
    next_states_shared := [[0], [0]]
    terminals_shared := [0, 0]
    gradStep := fun live _ _ => live
    forward := fun _ _ => [] }

/-- Mis-sized Transition Batch for claim C8: every sequence has length 1
while `C8net.batch_size = 2`, so inside the compiled training function
`q_vals` has a single row and the fixed row indexing `T.arange(2)` goes
out of bounds — a genuine engine error. -/
def C8badBatch : Batch (List ℚ) :=
  { states := [[3]]
    actions := [0]
    rewards := [1]
    next_states := [[0]]
    terminals := [0] }

/-- Dense estimator instance for claim C8's second corner: batch size 1,
with a gradient step that moves each live weight by 1. -/
def C8oneNet : QNet (List ℚ) :=
  { batch_size := 1
    freeze_interval := 5
    zeroState := [0]
    live := [[0]]
    target := [[0]]
    update_counter := 1
    states_shared := [[0]]
    actions_shared := [0]
    rewards_shared := [0]
    next_states_shared := [[0]]
    terminals_shared := [0]
    gradStep := fun live _ _ => live.map (fun w => w.map (fun x => x + 1))
    forward := fun _ _ => [] }

/-- Oversized Transition Batch for claim C8's second corner: every
sequence has length 2 while `C8oneNet.batch_size = 1`; the engine's
index broadcasting accepts it and the training step runs. -/
def C8bigBatch : Batch (List ℚ) :=
  { states := [[5], [6]]
    actions := [0, 0]
    rewards := [2, 2]
    next_states := [[0], [0]]
    terminals := [0, 0] }

/-! ## Helper lemmas -/

/-- Indexing commutes with `zipWith`, phrased with defaults: within the
common length, `(zipWith f l1 l2).getD i d3 = f (l1.getD i d1) (l2.getD i d2)`. -/
theorem getD_zipWith {α β γ : Type} (f : α → β → γ) (l1 : List α) (l2 : List β)
    (i : ℕ) (d1 : α) (d2 : β) (d3 : γ)
    (h1 : i < l1.length) (h2 : i < l2.length) :
    (List.zipWith f l1 l2).getD i d3 = f (l1.getD i d1) (l2.getD i d2) := by
  induction l1 generalizing l2 i with
  | nil => simp at h1
  | cons a as ih =>
    cases l2 with
    | nil => simp at h2
    | cons b bs =>
      cases i with
      | zero => rfl
      | succ n =>
        simp only [List.zipWith_cons_cons, List.getD_cons_succ]
        exact ih bs n (by simpa using h1) (by simpa using h2)

/-- Entry `j` of `oneHot n idx` is 1 exactly when `(j : ℤ) = idx`. -/
theorem oneHot_get (n : ℕ) (idx : ℤ) (j : ℕ) (hj : j < (oneHot n idx).length) :
    (oneHot n idx).get ⟨j, hj⟩ = if (j : ℤ) = idx then 1 else 0 := by
  have hj2 : j < (List.range n).length := by
    simpa only [oneHot, List.length_map] using hj
  simp only [oneHot, List.get_eq_getElem, List.getElem_map, List.getElem_range]

/-- Length of `oneHot n idx` is `n`. -/
theorem oneHot_length (n : ℕ) (idx : ℤ) : (oneHot n idx).length = n := by
  unfold oneHot
  rw [List.length_map, List.length_range]

/-- For `0 ≤ idx`, `oneHot n idx` is one-hot at index `idx.toNat`. -/
theorem oneHot_isOneHotAt (n : ℕ) (idx : ℤ) (h0 : 0 ≤ idx) :
    isOneHotAt (oneHot n idx) idx.toNat := by
  intro j hj
  rw [oneHot_get]
  have hiff : ((j : ℤ) = idx) ↔ (j = idx.toNat) := by omega
  simp only [hiff]

/-- Characterization of `buildHiddenLoop`: after the loop, the recorded
hidden-layer sources are `num_hidden_layers` copies of the input layer,
and `l_hid` refers to the last-constructed hidden layer (the input layer
when the loop body never ran). -/
theorem buildHiddenLoop_eq (n : ℕ) :
    buildHiddenLoop n = (List.replicate n LayerRef.input,
      if n = 0 then LayerRef.input else LayerRef.hidden (n - 1)) := by
  induction n with
  | zero => rfl
  | succ m ih =>
    simp only [buildHiddenLoop] at ih ⊢
    rw [List.range_succ, List.foldl_append, ih]
    have hrep : List.replicate (m + 1) LayerRef.input
        = List.replicate m LayerRef.input ++ [LayerRef.input] := by
      rw [List.replicate_add]
      rfl
    simp [hrep]

/-- Each `train` call increments the update counter by exactly one,
whether or not it syncs the target and whether or not it errors. -/
theorem train_update_counter {α : Type} (net : QNet α) (b : Batch α) :
    (train net b).1.update_counter = net.update_counter + 1 := by
  unfold train
  by_cases hs : net.update_counter % net.freeze_interval = 0 <;>
    by_cases hb : trainComputationSucceeds net b <;>
      simp [hs, hb, reset_target_network]

/-- Iterated training adds the number of batches to the update counter:
the pre-increment counter of the n-th training call (counting from 0) on
a freshly constructed estimator is n. -/
theorem trainSeq_update_counter {α : Type} (net : QNet α) (bs : List (Batch α)) :
    (trainSeq net bs).update_counter = net.update_counter + bs.length := by
  induction bs generalizing net with
  | nil => rfl
  | cons c cs ih =>
    show (trainSeq (train net c).1 cs).update_counter = _
    rw [ih, train_update_counter, List.length_cons]
    omega

/-- Post-call target Parameter Set of one `train` call: the live set as
of the start of the call when the pre-increment counter hits the freeze
interval, otherwise unchanged. -/
theorem train_target {α : Type} (net : QNet α) (b : Batch α) :
    (train net b).1.target =
      if net.update_counter % net.freeze_interval = 0 then net.live
      else net.target := by
  unfold train
  by_cases hs : net.update_counter % net.freeze_interval = 0 <;>
    by_cases hb : trainComputationSucceeds net b <;>
      simp [hs, hb, reset_target_network]

/-- Conformant batches always evaluate: a Transition Batch whose five
sequences all have length `batch_size` passes every runtime shape rule
of the compiled training function. -/
theorem batchWellShaped_succeeds {α : Type} (net : QNet α) (b : Batch α)
    (h : batchWellShaped net b = true) :
    trainComputationSucceeds net b = true := by
  simp only [batchWellShaped, Bool.and_eq_true, beq_iff_eq] at h
  obtain ⟨⟨⟨⟨h1, h2⟩, h3⟩, h4⟩, h5⟩ := h
  simp only [trainComputationSucceeds, Bool.and_eq_true, Bool.or_eq_true,
    beq_iff_eq, decide_eq_true_eq]
  refine ⟨⟨⟨⟨?_, ?_⟩, ?_⟩, ?_⟩, ?_⟩ <;> omega

/-! ## Claim theorems -/

/-- Claim C3 (confirmed): the per-row loss equals
`0.5 * min(|diff|, 1)^2 + (|diff| - min(|diff|, 1))`; it is exactly `1/2`
at `|diff| = 1` and exactly `3/2` at `|diff| = 2`; it is the quadratic
`diff^2 / 2` for `|diff| ≤ 1` and the slope-one linear `|diff| - 1/2`
beyond. -/
theorem rowLoss_spec (diff : ℚ) :
    rowLoss diff = (1 / 2) * (min |diff| 1) ^ 2 + (|diff| - min |diff| 1)
    ∧ (|diff| = 1 → rowLoss diff = 1 / 2)
    ∧ (|diff| = 2 → rowLoss diff = 3 / 2)
    ∧ (|diff| ≤ 1 → rowLoss diff = (1 / 2) * diff ^ 2)
    ∧ (1 ≤ |diff| → rowLoss diff = |diff| - 1 / 2) := by
  refine ⟨rfl, ?_, ?_, ?_, ?_⟩
  · intro h
    rw [rowLoss]
    simp only [h]
    norm_num
  · intro h
    rw [rowLoss]
    simp only [h]
    norm_num
  · intro h
    rw [rowLoss]
    simp only [min_eq_left h]
    rw [sq_abs]
    ring
  · intro h
    rw [rowLoss]
    simp only [min_eq_right h]
    ring

/-- Claim C3 witness: concrete boundary values `|diff| = 1` and
`|diff| = 2` (via `diff = -2`). -/
theorem rowLoss_spec_witness : rowLoss 1 = 1 / 2 ∧ rowLoss (-2) = 3 / 2 :=
  ⟨(rowLoss_spec 1).2.1 (by norm_num), (rowLoss_spec (-2)).2.2.1 (by norm_num)⟩

/-- Claim C4 (confirmed): the dense variant's scalar loss is the SUM of
the per-row Huber losses plus `regularization * (summed squared L2 norm
of the weight arrays)`; the convolutional variant's is the MEAN of the
per-row Huber losses plus the same regularization term; the two
aggregations genuinely differ (concretely on the diff column `[2, 2]`
with zero regularization: sum gives 3, mean gives 3/2). -/
theorem aggregation_dense_vs_conv (regularization : ℚ) (diffs : List ℚ)
    (weights : List (List ℚ)) :
    denseScalarLoss regularization diffs weights
      = (diffs.map rowLoss).sum + regularization * l2penalty weights
    ∧ convScalarLoss regularization diffs weights
      = (diffs.map rowLoss).sum / (diffs.length : ℚ)
        + regularization * l2penalty weights
    ∧ denseScalarLoss 0 [2, 2] [] ≠ convScalarLoss 0 [2, 2] [] := by
  refine ⟨rfl, ?_, ?_⟩
  · rw [convScalarLoss, listMean, List.length_map]
  · norm_num [denseScalarLoss, convScalarLoss, l2penalty, listMean, rowLoss]

/-- Claim C5 (confirmed): in the dense builder, for every
`num_hidden_layers ≥ 1`, each of the `num_hidden_layers` hidden
fully-connected layers takes the raw input layer as its source — a
flat/parallel-branch topology — and the final output layer takes the
last-constructed hidden layer as its source. -/
theorem build_network_topology (n : ℕ) (hn : 1 ≤ n) :
    (build_network n).hiddenSources.length = n
    ∧ (∀ s ∈ (build_network n).hiddenSources, s = LayerRef.input)
    ∧ (build_network n).outputSource = LayerRef.hidden (n - 1) := by
  have h := buildHiddenLoop_eq n
  have hn0 : n ≠ 0 := by omega
  refine ⟨?_, ?_, ?_⟩
  · rw [build_network, h]
    exact List.length_replicate n LayerRef.input
  · intro s hs
    rw [build_network] at hs
    simp only [h] at hs
    exact List.eq_of_mem_replicate hs
  · rw [build_network, h]
    simp [hn0]

/-- Claim C5 witness: two hidden layers, both sourced from the input
layer, output sourced from hidden layer 1. -/
theorem build_network_topology_witness :
    (build_network 2).hiddenSources.length = 2
    ∧ (build_network 2).outputSource = LayerRef.hidden 1 :=
  ⟨(build_network_topology 2 (by decide)).1,
   (build_network_topology 2 (by decide)).2.2⟩

/-- Claim C9 (confirmed): for every integer pair `(ridx, cidx)` —
unbounded coordinates, beyond the room size included — the single-room
encoder returns a vector of length `2 * room_size` that is the
concatenation of a one-hot vector with its 1 at index
`ridx mod room_size` and a one-hot vector with its 1 at index
`cidx mod room_size`; and concretely for `room_size = 3` the input
`(4, 4)` encodes to `[0, 1, 0, 0, 1, 0]`. -/
theorem convert_state_spec (room_size : ℕ) (hrs : 0 < room_size)
    (ridx cidx : ℤ) :
    (convert_state_to_agent_format room_size (ridx, cidx)).length
        = 2 * room_size
    ∧ convert_state_to_agent_format room_size (ridx, cidx)
        = oneHot room_size (ridx % (room_size : ℤ))
          ++ oneHot room_size (cidx % (room_size : ℤ))
    ∧ isOneHotAt (oneHot room_size (ridx % (room_size : ℤ)))
        (ridx % (room_size : ℤ)).toNat
    ∧ (ridx % (room_size : ℤ)).toNat < room_size
    ∧ isOneHotAt (oneHot room_size (cidx % (room_size : ℤ)))
        (cidx % (room_size : ℤ)).toNat
    ∧ (cidx % (room_size : ℤ)).toNat < room_size
    ∧ convert_state_to_agent_format 3 (4, 4) = [0, 1, 0, 0, 1, 0] := by
  have hpos : (0 : ℤ) < (room_size : ℤ) := by exact_mod_cast hrs
  have hr0 : 0 ≤ ridx % (room_size : ℤ) := Int.emod_nonneg ridx (by omega)
  have hc0 : 0 ≤ cidx % (room_size : ℤ) := Int.emod_nonneg cidx (by omega)
  have hrlt : ridx % (room_size : ℤ) < room_size := Int.emod_lt_of_pos ridx hpos
  have hclt : cidx % (room_size : ℤ) < room_size := Int.emod_lt_of_pos cidx hpos
  refine ⟨?_, rfl, oneHot_isOneHotAt _ _ hr0, by omega,
    oneHot_isOneHotAt _ _ hc0, by omega, by decide⟩
  rw [convert_state_to_agent_format]
  simp only [List.length_append, oneHot_length]
  omega

/-- Claim C9 witness: the concrete instance `room_size = 3`, input
`(4, 4)`. -/
theorem convert_state_spec_witness :
    (convert_state_to_agent_format 3 (4, 4)).length = 2 * 3 :=
  (convert_state_spec 3 (by decide) 4 4).1

/-- Claim C10 (confirmed): the inference operation `get_q_values` and
the accessor `get_params` leave the live Parameter Set, the target
Parameter Set and the update counter unchanged; `get_q_values` mutates
only the states input buffer, which it fully overwrites with a
zero-filled batch carrying the supplied state in row 0; `get_params`
merely returns the live Parameter Set.  Among the estimator operations
(`train`, `get_q_values`, `get_params`, `set_params`, construction),
this leaves `train`, `set_params` and construction as the only
modifiers of a Parameter Set or the counter. -/
theorem get_q_values_frame {α : Type} (net : QNet α) (state : α) :
    (get_q_values net state).1.live = net.live
    ∧ (get_q_values net state).1.target = net.target
    ∧ (get_q_values net state).1.update_counter = net.update_counter
    ∧ (get_q_values net state).1.states_shared
        = (List.replicate net.batch_size net.zeroState).set 0 state
    ∧ (get_q_values net state).1.actions_shared = net.actions_shared
    ∧ (get_q_values net state).1.rewards_shared = net.rewards_shared
    ∧ (get_q_values net state).1.next_states_shared = net.next_states_shared
    ∧ (get_q_values net state).1.terminals_shared = net.terminals_shared
    ∧ get_params net = net.live :=
  ⟨rfl, rfl, rfl, rfl, rfl, rfl, rfl, rfl, rfl⟩

/-- Claim C1 (amended): with `freeze_interval = k > 0`, `train` copies
the live Parameter Set into the target Parameter Set exactly on the
calls whose pre-increment `update_counter` satisfies
`update_counter mod k = 0` — the calls numbered 0, k, 2k, ..., since the
counter counts calls (third conjunct).  Immediately after that copy live
and target are identical, but the call then applies the gradient update
to the live parameters only, so at call completion the target holds the
live Parameter Set as of the START of the call; on every other call the
target is left exactly as it was after the last sync. -/
theorem train_target_sync {α : Type} (net : QNet α) (b : Batch α)
    (bs : List (Batch α)) (hk : 0 < net.freeze_interval) :
    ((train net b).1.target
        = if net.update_counter % net.freeze_interval = 0 then net.live
          else net.target)
    ∧ (train net b).1.update_counter = net.update_counter + 1
    ∧ (trainSeq net bs).update_counter = net.update_counter + bs.length :=
  ⟨train_target net b, train_update_counter net b,
   trainSeq_update_counter net bs⟩

/-- Claim C1 witness: the concrete sync call on `C1net` (counter 0,
freeze interval 1). -/
theorem train_target_sync_witness :
    (train C1net C1batch).1.update_counter = C1net.update_counter + 1 :=
  (train_target_sync C1net C1batch [] (by decide)).2.1

/-- Claim C1 counterexample: a concrete estimator at call #0 with
`freeze_interval = 1` (a sync call) whose gradient step moves each live
weight by 1.  The call succeeds and the sync did run (post-call target
equals the pre-call live set), yet immediately after the call live and
target are NOT identical: the sync precedes the gradient update inside
`train` (`qnetwork.py` lines 103-113), so the post-call target holds the
pre-update live values while live has moved. -/
theorem train_sync_not_post_call :
    (train C1net C1batch).2 = Except.ok ()
    ∧ C1net.update_counter % C1net.freeze_interval = 0
    ∧ (train C1net C1batch).1.target = C1net.live
    ∧ (train C1net C1batch).1.live ≠ (train C1net C1batch).1.target := by
  refine ⟨rfl, rfl, rfl, ?_⟩
  have h1 : (train C1net C1batch).1.live = [[(1 : ℚ)]] := by
    show [[(0 : ℚ) + 1]] = [[(1 : ℚ)]]
    norm_num
  have h2 : (train C1net C1batch).1.target = [[(0 : ℚ)]] := rfl
  rw [h1, h2]
  intro h
  have := List.head_eq_of_cons_eq h
  simp at this

/-- Claim C2 (confirmed): for every batch row `i` (within all three
input columns), the bootstrap target computed by the symbolic loss block
equals `reward_i + (1 - terminal_i) * discount * max_a next_q_vals[i, a]`;
and whenever `terminal_i = 1` the target equals `reward_i` exactly —
for EVERY value of the `next_q_vals` matrix, which stays universally
quantified in that conjunct. -/
theorem computeTargets_spec (discount : ℚ) (rewards : List ℚ)
    (terminals : List ℤ) (next_q_vals : List (List ℚ)) (i : ℕ)
    (hi : i < rewards.length) (ht : i < terminals.length)
    (hq : i < next_q_vals.length) :
    (computeTargets discount rewards terminals next_q_vals).getD i 0
      = rewards.getD i 0
        + (1 - (terminals.getD i 0 : ℚ)) * discount
          * rowMax (next_q_vals.getD i [])
    ∧ (terminals.getD i 0 = 1 →
        (computeTargets discount rewards terminals next_q_vals).getD i 0
          = rewards.getD i 0) := by
  have hzip : i < (terminals.zip next_q_vals).length := by
    rw [List.length_zip]
    omega
  have h2 : (terminals.zip next_q_vals).getD i ((0 : ℤ), ([] : List ℚ))
      = (terminals.getD i 0, next_q_vals.getD i []) := by
    show (List.zipWith Prod.mk terminals next_q_vals).getD i (0, []) = _
    exact getD_zipWith Prod.mk terminals next_q_vals i 0 [] (0, []) ht hq
  have h1 : (computeTargets discount rewards terminals next_q_vals).getD i 0
      = rewards.getD i 0
        + (1 - (terminals.getD i 0 : ℚ)) * discount
          * rowMax (next_q_vals.getD i []) := by
    rw [computeTargets,
      getD_zipWith _ rewards (terminals.zip next_q_vals) i 0 (0, []) 0 hi hzip,
      h2]
  refine ⟨h1, ?_⟩
  intro hterm
  rw [h1, hterm]
  push_cast
  ring

/-- Claim C2 witness: one terminal row with reward 2 and a huge
next-state Q-value: the target is exactly the reward. -/
theorem computeTargets_spec_witness :
    (computeTargets 1 [(2 : ℚ)] [(1 : ℤ)] [[100]]).getD 0 0
      = ([(2 : ℚ)]).getD 0 0 :=
  (computeTargets_spec 1 [2] [1] [[100]] 0 (by decide) (by decide)
    (by decide)).2 (by decide)

/-- Claim C6 (amended): constructing an estimator with an update-rule
string other than `adam`, `rmsprop` or `sgd` does fail during
construction — `initialize_updates` raises a `ValueError` — but only
AFTER both Parameter Sets are created, the target is synced and the
symbolic loss is assembled; what the failure does come before is the
compilation of the training and inference functions. -/
theorem initialize_network_invalid_rule (rule : String)
    (h : rule ≠ "adam" ∧ rule ≠ "rmsprop" ∧ rule ≠ "sgd") :
    initialize_updates rule
      = Except.error ("Unrecognized update: " ++ rule)
    ∧ initialize_network rule
      = [InitEvent.paramSetCreated, InitEvent.paramSetCreated,
         InitEvent.targetSynced, InitEvent.lossAssembled,
         InitEvent.configError ("Unrecognized update: " ++ rule)]
    ∧ InitEvent.updatesInitialized ∉ initialize_network rule
    ∧ InitEvent.functionsCompiled ∉ initialize_network rule := by
  obtain ⟨h1, h2, h3⟩ := h
  have hu : initialize_updates rule
      = Except.error ("Unrecognized update: " ++ rule) := by
    rw [initialize_updates]
    simp [h1, h2, h3]
  have hn : initialize_network rule
      = [InitEvent.paramSetCreated, InitEvent.paramSetCreated,
         InitEvent.targetSynced, InitEvent.lossAssembled,
         InitEvent.configError ("Unrecognized update: " ++ rule)] := by
    simp only [initialize_network, hu]
  refine ⟨hu, hn, ?_, ?_⟩ <;> rw [hn] <;> simp

/-- Claim C6 witness: the concrete unrecognized rule string used by the
spec's testable property. -/
theorem initialize_network_invalid_rule_witness :
    initialize_updates "unknown"
      = Except.error ("Unrecognized update: " ++ "unknown") :=
  (initialize_network_invalid_rule "unknown" (by decide)).1

/-- Claim C6 counterexample: for the rule `"unknown"` the construction
trace runs both Parameter-Set creations, the target sync and the loss
assembly BEFORE the configuration error is raised, so the failure does
not occur before any Parameter Set is created. -/
theorem initialize_network_work_before_error :
    initialize_network "unknown"
      = [InitEvent.paramSetCreated, InitEvent.paramSetCreated,
         InitEvent.targetSynced, InitEvent.lossAssembled,
         InitEvent.configError "Unrecognized update: unknown"]
    ∧ InitEvent.paramSetCreated
        ∈ (initialize_network "unknown").takeWhile
            (fun e => ! e.isConfigError) :=
  ⟨rfl, by decide⟩

/-- Claim C7 (amended): for the dense estimator — the only variant that
provides a `set_params` method — `set_params (get_params net)` leaves
the live Parameter Set numerically identical to its pre-call value and
afterwards the target Parameter Set equals the live one; and for ANY
shape-compatible argument `p`, `set_params` re-runs the full
live-to-target synchronization, leaving live and target both equal to
`p`. -/
theorem set_params_round_trip {α : Type} (net : QNet α) (p : Params)
    (hp : p.map List.length = net.live.map List.length) :
    set_params net (get_params net)
      = Except.ok (reset_target_network { net with live := net.live })
    ∧ (reset_target_network { net with live := net.live }).live = net.live
    ∧ (reset_target_network { net with live := net.live }).target = net.live
    ∧ set_params net p
      = Except.ok (reset_target_network { net with live := p })
    ∧ (reset_target_network { net with live := p }).live = p
    ∧ (reset_target_network { net with live := p }).target = p := by
  refine ⟨?_, rfl, rfl, ?_, rfl, rfl⟩
  · rw [set_params, get_params, if_pos rfl]
  · rw [set_params, if_pos hp]

/-- Claim C7 witness: the round trip on the concrete estimator `C7net`,
using its own parameters as the (trivially shape-compatible) argument. -/
theorem set_params_round_trip_witness :
    set_params C7net (get_params C7net)
      = Except.ok (reset_target_network { C7net with live := C7net.live })
    ∧ (reset_target_network { C7net with live := C7net.live }).live
        = C7net.live
    ∧ (reset_target_network { C7net with live := C7net.live }).target
        = C7net.live := by
  have h := set_params_round_trip C7net C7net.live rfl
  exact ⟨h.1, h.2.1, h.2.2.1⟩

/-- Claim C7 counterexample: the claim quantifies over every estimator
instance, but the convolutional estimator class defines no `set_params`
method at all (`qnetwork.py` lines 292-458), while the dense class does
(lines 146-152); `set_params(get_params())` cannot even be invoked on a
`ConvQNetwork` instance. -/
theorem convQNetwork_lacks_set_params :
    "set_params" ∉ ConvQNetworkMethods ∧ "set_params" ∈ QNetworkMethods := by
  decide

/-- Claim C8 (amended): when a mis-sized Transition Batch does make the
compiled training function raise — a batch smaller than the configured
batch size sends the fixed `T.arange(batch_size)` row indexing out of
bounds inside `self._train()` (line 113) — the error is synchronous, but
partial mutation IS observable on the error path: the target sync and
the counter increment happen before input binding, and all five input
buffers are overwritten before the failure; only the live Parameter Set
is untouched (the gradient update never runs). -/
theorem train_error_path {α : Type} (net : QNet α) (b : Batch α)
    (herr : (train net b).2 = Except.error ()) :
    (train net b).1.live = net.live
    ∧ (train net b).1.update_counter = net.update_counter + 1
    ∧ (train net b).1.states_shared = b.states
    ∧ (train net b).1.actions_shared = b.actions
    ∧ (train net b).1.rewards_shared = b.rewards
    ∧ (train net b).1.next_states_shared = b.next_states
    ∧ (train net b).1.terminals_shared = b.terminals
    ∧ (train net b).1.target
        = (if net.update_counter % net.freeze_interval = 0 then net.live
           else net.target) := by
  by_cases hb : trainComputationSucceeds net b
  · exfalso
    rw [train] at herr
    simp [hb] at herr
  · by_cases hs : net.update_counter % net.freeze_interval = 0 <;>
      simp [train, hb, hs, reset_target_network]

/-- Claim C8 witness: the concrete undersized call on `C8net` (length-1
batch against batch size 2), a genuine engine error input. -/
theorem train_error_path_witness :
    (train C8net C8badBatch).1.live = C8net.live
    ∧ (train C8net C8badBatch).1.update_counter = C8net.update_counter + 1
    ∧ (train C8net C8badBatch).1.states_shared = C8badBatch.states := by
  have h := train_error_path C8net C8badBatch rfl
  exact ⟨h.1, h.2.1, h.2.2.1⟩

/-- Claim C8 counterexample, both corners of the original claim.  First:
the undersized batch `C8badBatch` (length 1 against batch size 2) makes
`train` raise — the out-of-bounds `T.arange(2)` row indexing — yet the
update counter, the states and rewards buffers and the target Parameter
Set all differ from their pre-call values, so the claimed "no partial
mutation" fails.  Second: a mis-sized batch need not raise at all —
the oversized `C8bigBatch` (length 2 against batch size 1) is silently
accepted by index broadcasting, the call returns normally and the
gradient update mutates the live Parameter Set, so the claimed
synchronous error fails too. -/
theorem train_error_not_atomic :
    (train C8net C8badBatch).2 = Except.error ()
    ∧ (train C8net C8badBatch).1.update_counter ≠ C8net.update_counter
    ∧ (train C8net C8badBatch).1.states_shared ≠ C8net.states_shared
    ∧ (train C8net C8badBatch).1.rewards_shared ≠ C8net.rewards_shared
    ∧ (train C8net C8badBatch).1.target ≠ C8net.target
    ∧ (train C8oneNet C8bigBatch).2 = Except.ok ()
    ∧ (train C8oneNet C8bigBatch).1.live ≠ C8oneNet.live := by
  refine ⟨rfl, by decide, by decide, by decide, by decide, rfl, ?_⟩
  have h1 : (train C8oneNet C8bigBatch).1.live = [[(1 : ℚ)]] := by
    show [[(0 : ℚ) + 1]] = [[(1 : ℚ)]]
    norm_num
  have h2 : C8oneNet.live = [[(0 : ℚ)]] := rfl
  rw [h1, h2]
  intro h
  have := List.head_eq_of_cons_eq h
  simp at this

end HRL
